import Mathlib

/-!
Verification of the asynchronous content-analysis pipeline of the
tadabbur-api backend.

The definitions below are a shallow embedding of the JavaScript source:

* `Json`, `jsonParse`     — model of JavaScript JSON values and `JSON.parse`
                            (strict JSON grammar; `none` models a thrown
                            `SyntaxError`);
* `parseAIResponseE`      — `Gemma3Service.parseAIResponse`
                            (src/services/gemma3Service.js), including the
                            greedy brace-span regex, the truncation-repair
                            catch block and the line-oriented text fallback;
* `gemma3GenerateAnalysis`— `Gemma3Service.generateAnalysis` with its 503
                            fallback to `AIService.generateAnalysis`,
                            parameterised by the transport outcomes of the two
                            remote calls, returning the list of remote calls
                            attempted together with their request parameters;
* `processContent`, `addAIAnalysisJob`
                          — the job-row state transitions performed by
                            `Gemma3Service.processContent` and the inline
                            branch of `QueueService.addAIAnalysisJob`, over an
                            explicit list of `ai_processing_queue` rows;
* `stepQ`/`runEvents`     — the in-process single-flight request queue
                            (`generateAnalysisWithQueue`/`processQueue`) as an
                            event-step machine over the JS event loop;
* `generateLocalFallbackAnalysis`, `analyzeDraft`
                          — the local heuristic analyzer and the
                            `POST /api/ai/analyze-draft` route
                            (src/routes/ai.js);
* `buildPrompt`           — `Gemma3Service.buildPrompt`.

JavaScript machine details modelled explicitly: exceptions are `Except`
values (`JsError` carries an optional HTTP `status` and a `message`), JS
truthiness is `jsTruthy`, property access on a parsed JSON value is `jsProp`
(`none` models `undefined`; reading a property of `null` throws), and numbers
are rationals (every numeral appearing in this code is exactly representable).
-/

/-- JavaScript JSON values, as produced by `JSON.parse`. -/
inductive Json where
  | null : Json
  | bool (b : Bool) : Json
  | num (q : ℚ) : Json
  | str (s : String) : Json
  | arr (elems : List Json) : Json
  | obj (fields : List (String × Json)) : Json

/-- List-level check that `p` is a leading segment of `cs`. -/
def startsL : List Char → List Char → Bool
  | [], _ => true
  | _ :: _, [] => false
  | p :: ps, c :: cs => p == c && startsL ps cs

/-- List-level substring containment (the model of JS `String.includes`). -/
def hasSubL (pat : List Char) : List Char → Bool
  | [] => startsL pat []
  | c :: cs => startsL pat (c :: cs) || hasSubL pat cs

/-- JS `String.prototype.includes`. -/
def hasSub (s pat : String) : Bool := hasSubL pat.toList s.toList

/-- Whitespace accepted by the JSON grammar. -/
def isJsonWs (c : Char) : Bool := c == ' ' || c == '\t' || c == '\n' || c == '\r'

/-- Drop leading JSON whitespace. -/
def skipWs : List Char → List Char
  | [] => []
  | c :: cs => if isJsonWs c then skipWs cs else c :: cs

/-- Value of a hex digit, if any. -/
def hexVal (c : Char) : Option Nat :=
  if '0' ≤ c && c ≤ '9' then some (c.toNat - 48)
  else if 'a' ≤ c && c ≤ 'f' then some (c.toNat - 87)
  else if 'A' ≤ c && c ≤ 'F' then some (c.toNat - 55)
  else none

/-- Parse the body of a JSON string literal (after the opening quote),
returning the decoded characters and the input following the closing
quote.  Escapes follow the JSON grammar; a bad escape or an unterminated
literal fails, as `JSON.parse` throws there. -/
def parseStringBody : Nat → List Char → Option (List Char × List Char)
  | 0, _ => none
  | _, [] => none
  | fuel + 1, c :: cs =>
    if c == '"' then some ([], cs)
    else if c == '\\' then
      match cs with
      | [] => none
      | e :: cs2 =>
        let step (d : Char) (rest : List Char) : Option (List Char × List Char) :=
          match parseStringBody fuel rest with
          | some (body, rem) => some (d :: body, rem)
          | none => none
        if e == '"' then step '"' cs2
        else if e == '\\' then step '\\' cs2
        else if e == '/' then step '/' cs2
        else if e == 'b' then step (Char.ofNat 8) cs2
        else if e == 'f' then step (Char.ofNat 12) cs2
        else if e == 'n' then step '\n' cs2
        else if e == 'r' then step '\r' cs2
        else if e == 't' then step '\t' cs2
        else if e == 'u' then
          match cs2 with
          | h1 :: h2 :: h3 :: h4 :: cs3 =>
            match hexVal h1, hexVal h2, hexVal h3, hexVal h4 with
            | some a, some b, some c3, some d4 =>
              step (Char.ofNat (((a * 16 + b) * 16 + c3) * 16 + d4)) cs3
            | _, _, _, _ => none
          | _ => none
        else none
    else if c.toNat < 32 then none
    else
      match parseStringBody fuel cs with
      | some (body, rem) => some (c :: body, rem)
      | none => none

/-- Split off a maximal run of decimal digits. -/
def takeDigits : List Char → List Char × List Char
  | [] => ([], [])
  | c :: cs =>
    if '0' ≤ c && c ≤ '9' then
      let (ds, rest) := takeDigits cs
      (c :: ds, rest)
    else ([], c :: cs)

/-- Numeric value of a digit string. -/
def digitsToNat (ds : List Char) : Nat :=
  ds.foldl (fun n c => n * 10 + (c.toNat - 48)) 0

/-- Parse a JSON number (sign, integer part with no leading zeros, optional
fraction, optional exponent), returning its exact rational value. -/
def parseNumber (cs : List Char) : Option (ℚ × List Char) :=
  let (neg, cs1) :=
    match cs with
    | '-' :: rest => (true, rest)
    | _ => (false, cs)
  let (intDs, cs2) := takeDigits cs1
  match intDs with
  | [] => none
  | d0 :: drest =>
    if d0 == '0' && drest ≠ [] then none
    else
      let intPart : ℚ := (digitsToNat intDs : ℚ)
      let (fracPart, cs3) :=
        match cs2 with
        | '.' :: rest =>
          let (fds, rest2) := takeDigits rest
          match fds with
          | [] => (none, cs2)
          | _ => (some ((digitsToNat fds : ℚ) / ((10 : ℚ) ^ fds.length)), rest2)
        | _ => (some 0, cs2)
      match fracPart with
      | none => none
      | some frac =>
        let base : ℚ := intPart + frac
        let (expPart, cs4) :=
          match cs3 with
          | e :: rest =>
            if e == 'e' || e == 'E' then
              let (esign, rest1) :=
                match rest with
                | '+' :: r => ((1 : Int), r)
                | '-' :: r => ((-1 : Int), r)
                | _ => ((1 : Int), rest)
              let (eds, rest2) := takeDigits rest1
              match eds with
              | [] => (none, cs3)
              | _ => (some (esign * (digitsToNat eds : Int)), rest2)
            else (some 0, cs3)
          | [] => (some 0, cs3)
        match expPart with
        | none => none
        | some ex =>
          let v : ℚ :=
            if 0 ≤ ex then base * ((10 : ℚ) ^ ex.toNat)
            else base / ((10 : ℚ) ^ (-ex).toNat)
          some (if neg then -v else v, cs4)

mutual

/-- Parse one JSON value from the front of the input (leading whitespace
allowed). -/
def parseValue : Nat → List Char → Option (Json × List Char)
  | 0, _ => none
  | fuel + 1, cs =>
    match skipWs cs with
    | [] => none
    | c :: rest =>
      if c == '"' then
        match parseStringBody (rest.length + 1) rest with
        | some (body, rem) => some (.str (String.mk body), rem)
        | none => none
      else if c == '\x7b' then parseObjItems fuel (skipWs rest) true
      else if c == '[' then parseArrItems fuel (skipWs rest) true
      else if startsL "true".toList (c :: rest) then some (.bool true, (c :: rest).drop 4)
      else if startsL "false".toList (c :: rest) then some (.bool false, (c :: rest).drop 5)
      else if startsL "null".toList (c :: rest) then some (.null, (c :: rest).drop 4)
      else
        match parseNumber (c :: rest) with
        | some (q, rem) => some (.num q, rem)
        | none => none

/-- Parse the members of a JSON object, after the opening brace (`first` is
true before any member has been read). -/
def parseObjItems : Nat → List Char → Bool → Option (Json × List Char)
  | 0, _, _ => none
  | fuel + 1, cs, first =>
    match cs with
    | '\x7d' :: rest =>
      if first then some (.obj [], rest) else none
    | _ =>
      match skipWs cs with
      | '"' :: rest =>
        match parseStringBody (rest.length + 1) rest with
        | none => none
        | some (key, afterKey) =>
          match skipWs afterKey with
          | ':' :: afterColon =>
            match parseValue fuel afterColon with
            | none => none
            | some (v, afterVal) =>
              match skipWs afterVal with
              | ',' :: afterComma =>
                match parseObjItems fuel (skipWs afterComma) false with
                | some (.obj kvs, rem) => some (.obj ((String.mk key, v) :: kvs), rem)
                | _ => none
              | '\x7d' :: rem => some (.obj [(String.mk key, v)], rem)
              | _ => none
          | _ => none
      | _ => none

/-- Parse the elements of a JSON array, after the opening bracket. -/
def parseArrItems : Nat → List Char → Bool → Option (Json × List Char)
  | 0, _, _ => none
  | fuel + 1, cs, first =>
    match cs with
    | ']' :: rest =>
      if first then some (.arr [], rest) else none
    | _ =>
      match parseValue fuel cs with
      | none => none
      | some (v, afterVal) =>
        match skipWs afterVal with
        | ',' :: afterComma =>
          match parseArrItems fuel (skipWs afterComma) false with
          | some (.arr vs, rem) => some (.arr (v :: vs), rem)
          | _ => none
        | ']' :: rem => some (.arr [v], rem)
        | _ => none

end

/-- Model of `JSON.parse`: `none` is a thrown `SyntaxError`.  The fuel bound
exceeds the number of parser steps possible on the input. -/
def jsonParse (s : String) : Option Json :=
  let cs := s.toList
  match parseValue (8 * cs.length + 8) cs with
  | some (v, rest) => if (skipWs rest).isEmpty then some v else none
  | none => none

/-- JavaScript truthiness of a JSON value (`NaN` does not arise from
`JSON.parse`). -/
def jsTruthy : Json → Bool
  | .null => false
  | .bool b => b
  | .num q => q != 0
  | .str s => s != ""
  | .arr _ => true
  | .obj _ => true

/-- Property read `v[k]` on a non-null JSON value; `none` models
`undefined`.  `JSON.parse` keeps the last of duplicate keys, hence the
reversed lookup. -/
def jsProp (v : Json) (k : String) : Option Json :=
  match v with
  | .obj kvs =>
    match kvs.reverse.find? (fun kv => kv.1 == k) with
    | some kv => some kv.2
    | none => none
  | _ => none

/-- JS `a || b` where `a` is a possibly-undefined JSON value. -/
def jsOrJ (v : Option Json) (d : Json) : Json :=
  match v with
  | some j => if jsTruthy j then j else d
  | none => d

/-- Truthiness of `v[k]`. -/
def truthyProp (v : Json) (k : String) : Bool :=
  match jsProp v k with
  | some j => jsTruthy j
  | none => false

/-- `typeof v === 'object'` (true for objects, arrays and `null`). -/
def jsTypeofObject : Json → Bool
  | .null => true
  | .arr _ => true
  | .obj _ => true
  | _ => false

/-- A thrown JavaScript error: optional HTTP-like `status` plus `message`. -/
structure JsError where
  status : Option Nat := none
  message : String

/-- The normalized analysis record assembled by `parseAIResponse` and the
local fallback.  Field values are JSON values because the source mixes
strings and objects (bilingual pairs) in the same positions; `source` is
present only on local-fallback records. -/
structure AnalysisRecord where
  summary : Json
  corrections : List Json
  authenticity : Json
  confidence : Json
  source : Option String := none

/-- `v[k] || defaultString` as used for the bilingual summary fields. -/
def propOrStr (v : Json) (k : String) (d : String) : Json :=
  jsOrJ (jsProp v k) (.str d)

/-- Normalization of one entry of the `corrections` array
(gemma3Service.js lines 553-560): object-typed entries are rebuilt with
per-field defaults, other entries pass through.  Reading `.field` of a
`null` entry throws (`typeof null === 'object'`). -/
def normalizeCorrection (c : Json) : Except JsError Json :=
  if jsTypeofObject c then
    match c with
    | .null => .error { message := "Cannot read properties of null" }
    | _ => .ok (.obj
        [("field", jsOrJ (jsProp c "field") (.str "unknown")),
         ("issue_english", jsOrJ (jsProp c "issue_english") (.str "")),
         ("issue_bangla", jsOrJ (jsProp c "issue_bangla") (.str "")),
         ("suggestion_english", jsOrJ (jsProp c "suggestion_english") (.str "")),
         ("suggestion_bangla", jsOrJ (jsProp c "suggestion_bangla") (.str ""))])
  else .ok c

/-- Normalization of the `corrections` value: an array is mapped entry by
entry, anything else is wrapped as a one-element sequence. -/
def correctionsOf (corrJ : Json) : Except JsError (List Json) :=
  match corrJ with
  | .arr es => es.mapM normalizeCorrection
  | _ => .ok [jsOrJ (some corrJ) (.str "পরামর্শ প্রদান করা হয়নি")]

/-- The record built when the decoded object has the three expected keys
(gemma3Service.js lines 546-569); `j` is the decoded object. -/
def structuredRecord (j : Json) : Except JsError AnalysisRecord :=
  match correctionsOf ((jsProp j "corrections").getD .null) with
  | .error e => .error e
  | .ok cs => .ok
    { summary := .obj
        [("english", propOrStr ((jsProp j "summary").getD .null) "english" "Summary not provided"),
         ("bangla", propOrStr ((jsProp j "summary").getD .null) "bangla" "সারাংশ প্রদান করা হয়নি")],
      corrections := cs,
      authenticity := .obj
        [("english", .str "Content analysis completed"),
         ("bangla", .str "বিষয়বস্তু বিশ্লেষণ সম্পন্ন হয়েছে")],
      confidence := .num (4 / 5) }

/-- The legacy/simple-shape record (gemma3Service.js lines 572-577). -/
def simpleRecord (j : Json) : AnalysisRecord :=
  { summary := jsOrJ (jsProp j "summary") (.str "সারাংশ প্রদান করা হয়নি"),
    corrections :=
      match jsProp j "corrections" with
      | some (.arr es) => es
      | other => [jsOrJ other (.str "পরামর্শ প্রদান করা হয়নি")],
    authenticity := jsOrJ (jsProp j "authenticity") (.str "সত্যতা মূল্যায়ন প্রদান করা হয়নি"),
    confidence := jsOrJ (jsProp j "confidence") (.num (4 / 5)) }

/-- Index of the first occurrence of a character. -/
def idxOfFirst (c : Char) : List Char → Option Nat
  | [] => none
  | x :: xs => if x == c then some 0 else (idxOfFirst c xs).map (· + 1)

/-- Index of the last occurrence of a character. -/
def idxOfLast (c : Char) (cs : List Char) : Option Nat :=
  match idxOfFirst c cs.reverse with
  | some k => some (cs.length - 1 - k)
  | none => none

/-- The greedy regex `/\x7b[\s\S]*\x7d/` of `parseAIResponse`: the span from
the first `\x7b` to the last `\x7d`, when that span is non-degenerate. -/
def greedyJsonSpan (s : String) : Option String :=
  let cs := s.toList
  match idxOfFirst '\x7b' cs, idxOfLast '\x7d' cs with
  | some i, some j => if i < j then some (String.mk ((cs.drop i).take (j - i + 1))) else none
  | _, _ => none

/-- Characters matched by the JS regex class `\s` (ASCII part). -/
def isRegexWs (c : Char) : Bool :=
  c == ' ' || c == '\t' || c == '\n' || c == '\r' || c == '\x0b' || c == '\x0c'

/-- After a newline, the lookahead `\s*$|\s*[^\x7d]` holds iff the remainder
is empty, starts with whitespace, or starts with a non-`\x7d` character. -/
def afterNewlineOk : List Char → Bool
  | [] => true
  | d :: _ => isRegexWs d || d != '\x7d'

/-- The lookahead `(?=\n\s*$|\n\s*[^\x7d]|$)` of the partial-JSON regex,
tested at the given remainder of the input. -/
def lookaheadAt : List Char → Bool
  | [] => true
  | c :: rest => c == '\n' && afterNewlineOk rest

/-- Lazy expansion of `[\s\S]*?`: consume characters until the lookahead
holds (it always holds at the end of input). -/
def lazyTake : List Char → List Char
  | [] => []
  | c :: cs => if lookaheadAt (c :: cs) then [] else c :: lazyTake cs

/-- The catch-block regex `/\x7b[\s\S]*?(?=\n\s*$|\n\s*[^\x7d]|$)/`: from the
first `\x7b`, the shortest span whose following position satisfies the
lookahead. -/
def lazySpan (s : String) : Option (List Char) :=
  let cs := s.toList
  match idxOfFirst '\x7b' cs with
  | none => none
  | some i => some ('\x7b' :: lazyTake ((cs.drop i).drop 1))

/-- Literal tested by the hard-coded `suggestion_bangla` repair
(gemma3Service.js line 642). -/
def bengaliHackLit : String := "\"suggestion_bangla\": \"আরও ভাল"

/-- Replacement used by that repair. -/
def bengaliHackRepl : String := "\"suggestion_bangla\": \"আরও ভালো করা যেতে পারে\""

/-- First index at which `lit` starts and is followed only by non-quote
characters up to the end (the match of `/"suggestion_bangla": "আরও ভাল[^"]*$/`). -/
def findTailMatch (lit : List Char) : List Char → Option Nat
  | [] => if startsL lit [] then some 0 else none
  | c :: cs =>
    if startsL lit (c :: cs) && !(((c :: cs).drop lit.length).contains '"') then some 0
    else (findTailMatch lit (c :: cs).tail).map (· + 1)

/-- The hard-coded truncated-`suggestion_bangla` repair: applies only when
the span contains the literal and no closing brace at all. -/
def bengaliHack (p : List Char) : List Char :=
  if hasSubL bengaliHackLit.toList p && !(p.contains '\x7d') then
    match findTailMatch bengaliHackLit.toList p with
    | some i => p.take i ++ bengaliHackRepl.toList
    | none => p
  else p

/-- Occurrences of a character. -/
def countCh (c : Char) (cs : List Char) : Nat := (cs.filter (· == c)).length

/-- Brace/bracket balance repair (gemma3Service.js lines 647-660): append
the missing `]` first, then the missing `\x7d` (in that order, as the code
does). -/
def appendClosers (p : List Char) : List Char :=
  p ++ List.replicate (countCh '[' p - countCh ']' p) ']'
    ++ List.replicate (countCh '\x7b' p - countCh '\x7d' p) '\x7d'

/-- `a.trim() || d` on strings. -/
def jsOrStr (s d : String) : String := if s == "" then d else s

/-- Lowercase comparison drop: if `pat` (given lowercased) matches the head
of `cs` case-insensitively, return the remainder. -/
def matchCIDrop : List Char → List Char → Option (List Char)
  | [], cs => some cs
  | _ :: _, [] => none
  | p :: ps, c :: cs => if c.toLower == p then matchCIDrop ps cs else none

/-- Drop leading regex whitespace (`\s*`). -/
def dropRegexWs : List Char → List Char
  | [] => []
  | c :: cs => if isRegexWs c then dropRegexWs cs else c :: cs

/-- The section-header strip
`line.replace(/^(alt1|num\.\s*word|alt3)\s*/i, '')`: ordered alternation,
identity when nothing matches at the start. -/
def stripHeaderGen (alt1 numTok word alt3 : String) (t : String) : String :=
  let cs := t.toList
  match matchCIDrop alt1.toList cs with
  | some rest => String.mk (dropRegexWs rest)
  | none =>
    match
      match matchCIDrop numTok.toList cs with
      | some r1 => matchCIDrop word.toList (dropRegexWs r1)
      | none => none
    with
    | some r2 => String.mk (dropRegexWs r2)
    | none =>
      match matchCIDrop alt3.toList cs with
      | some r3 => String.mk (dropRegexWs r3)
      | none => t

/-- One pass of the line-oriented text fallback (gemma3Service.js lines
586-616); the accumulator is (summary, corrections, authenticity,
current-section with 0 = none). -/
def textScan : List String → String → String → String → Nat → String × String × String
  | [], s, c, a, _ => (s, c, a)
  | line :: rest, s, c, a, cur =>
    let t := line.trim
    let lower := t.toLower
    if hasSub lower "summary:" || hasSub lower "1. summary" || hasSub lower "summary" then
      textScan rest (s ++ (stripHeaderGen "summary:" "1." "summary" "summary" t).trim ++ " ") c a 1
    else if hasSub lower "corrections:" || hasSub lower "2. corrections" || hasSub lower "correction" then
      textScan rest s (c ++ (stripHeaderGen "corrections:" "2." "corrections" "correction" t).trim ++ " ") a 2
    else if hasSub lower "authenticity:" || hasSub lower "3. authenticity" || hasSub lower "authenticity" then
      textScan rest s c (a ++ (stripHeaderGen "authenticity:" "3." "authenticity" "authenticity" t).trim ++ " ") 3
    else if cur != 0 && t != "" then
      match cur with
      | 1 => textScan rest (s ++ t ++ " ") c a cur
      | 2 => textScan rest s (c ++ t ++ " ") a cur
      | _ => textScan rest s c (a ++ t ++ " ") cur
    else textScan rest s c a cur

/-- The text-parsing fallback record (gemma3Service.js lines 580-628). -/
def textFallbackRecord (response : String) : AnalysisRecord :=
  let lines := (response.splitOn "\n").filter (fun l => l.trim != "")
  let sca := textScan lines "" "" "" 0
  { summary := .str (jsOrStr sca.1.trim "AI দ্বারা বিশ্লেষণ সম্পন্ন - বিষয়বস্তু ইসলামী প্রকৃতির বলে মনে হচ্ছে"),
    corrections := [.str (jsOrStr sca.2.1.trim "সব তথ্য ঠিক আছে - কোনো সংশোধনের প্রয়োজন নেই")],
    authenticity := .str (jsOrStr sca.2.2.trim "বিষয়বস্তু ইসলামী প্রকৃতির এবং সত্যতা বলে মনে হচ্ছে"),
    confidence := .num (4 / 5) }

/-- The fixed low-confidence placeholder returned when all recovery fails
(gemma3Service.js lines 694-699). -/
def fullFailureRecord : AnalysisRecord :=
  { summary := .str "AI দ্বারা বিশ্লেষণ সম্পন্ন - বিষয়বস্তু ইসলামী প্রকৃতির বলে মনে হচ্ছে",
    corrections := [.str "সব তথ্য ঠিক আছে - কোনো সংশোধনের প্রয়োজন নেই"],
    authenticity := .str "বিষয়বস্তু ইসলামী প্রকৃতির বলে মনে হচ্ছে - যাচাই সুপারিশ করা হচ্ছে",
    confidence := .num 0 }

/-- The body of `parseAIResponse`'s outer `try` (gemma3Service.js lines
533-628): greedy span, strict decode (a decode failure throws out of the
try), shape dispatch, or — only when no span exists — the text fallback. -/
def tryBody (response : String) : Except JsError AnalysisRecord :=
  match greedyJsonSpan response with
  | some span =>
    match jsonParse span with
    | none => .error { message := "Unexpected end of JSON input" }
    | some j =>
      if truthyProp j "analysis" && truthyProp j "corrections" && truthyProp j "summary" then
        structuredRecord j
      else .ok (simpleRecord j)
  | none => .ok (textFallbackRecord response)

/-- The inner `try` of the catch block (gemma3Service.js lines 635-689):
`.ok (some r)` models an explicit `return`, `.ok none` falling through to
the final placeholder, `.error` a throw caught by the inner catch. -/
def catchRepair (response : String) : Except JsError (Option AnalysisRecord) :=
  match lazySpan response with
  | none => .ok none
  | some p0 =>
    match jsonParse (String.mk (appendClosers (bengaliHack p0))) with
    | none => .error { message := "Unexpected end of JSON input" }
    | some j =>
      if truthyProp j "analysis" && truthyProp j "corrections" && truthyProp j "summary" then
        match structuredRecord j with
        | .ok r => .ok (some r)
        | .error e => .error e
      else .ok none

/-- The whole catch block: repair result if it returned, otherwise the
placeholder; a throw inside the repair is swallowed by the inner catch. -/
def catchBlock (response : String) : AnalysisRecord :=
  match catchRepair response with
  | .ok (some r) => r
  | .ok none => fullFailureRecord
  | .error _ => fullFailureRecord

/-- `Gemma3Service.parseAIResponse` with the outer try/catch made explicit:
an `.error` result would mean an exception escaping to the caller. -/
def parseAIResponseE (response : String) : Except JsError AnalysisRecord :=
  match tryBody response with
  | .ok r => .ok r
  | .error _ => .ok (catchBlock response)

/-- The returned record of `parseAIResponse`. -/
def parseAIResponse (response : String) : AnalysisRecord :=
  match parseAIResponseE response with
  | .ok r => r
  | .error _ => fullFailureRecord

/-- The request parameters of one remote model call: tier (1 = tried first),
model name, generation token budget, temperature, nucleus-sampling p,
optional top-k and repetition penalty, and request timeout. -/
structure TierCallRec where
  tier : Nat
  model : String
  tokenBudget : Nat
  temperature : ℚ
  topP : ℚ
  topK : Option Nat
  repetitionPenalty : Option ℚ
  timeoutMs : Nat

/-- The request issued by `Gemma3Service.generateAnalysis` (gemma3Service.js
lines 450-462): `max_tokens: 2000`, `temperature: 0.3`, `top_p: 0.9`,
`timeout: 45000`. -/
def gemma3Call : TierCallRec :=
  { tier := 1, model := "google/gemma-3-12b-it:featherless-ai",
    tokenBudget := 2000, temperature := 3 / 10, topP := 9 / 10,
    topK := none, repetitionPenalty := none, timeoutMs := 45000 }

/-- The request issued by `AIService.generateAnalysis` (aiService.js lines
83-104): `max_new_tokens: 800`, `temperature: 0.6`, `top_p: 0.9`,
`top_k: 50`, `repetition_penalty: 1.1`, `timeout: 60000`. -/
def aiServiceCall : TierCallRec :=
  { tier := 2, model := "google/gemma-3-27b-it",
    tokenBudget := 800, temperature := 6 / 10, topP := 9 / 10,
    topK := some 50, repetitionPenalty := some (11 / 10), timeoutMs := 60000 }

/-- The availability test of the Gemma3 catch block (gemma3Service.js line
475): `error.status === 503 || error.message.includes('503') ||
error.message.includes('Service Unavailable')`. -/
def is503Class (e : JsError) : Bool :=
  e.status == some 503 || hasSub e.message "503" || hasSub e.message "Service Unavailable"

/-- The catch block of `Gemma3Service.generateAnalysis` (lines 471-482):
on a 503-class error the secondary service is invoked once (its outcome,
parse included, is `t2`); otherwise a fresh error is thrown.  The returned
list records the remote calls attempted, in order. -/
def gemma3CatchClause (e : JsError) (t2 : Except JsError AnalysisRecord) :
    Except JsError AnalysisRecord × List TierCallRec :=
  if is503Class e then (t2, [gemma3Call, aiServiceCall])
  else (.error { message := "AI service temporarily unavailable" }, [gemma3Call])

/-- `Gemma3Service.generateAnalysis` (lines 441-483): `t1` is the transport
outcome of the Tier-1 request (the raw response text on success), `t2` the
outcome of `AIService.generateAnalysis` should it be called. -/
def gemma3GenerateAnalysis (t1 : Except JsError String)
    (t2 : Except JsError AnalysisRecord) :
    Except JsError AnalysisRecord × List TierCallRec :=
  match t1 with
  | .ok body =>
    match parseAIResponseE body with
    | .ok r => (.ok r, [gemma3Call])
    | .error e => gemma3CatchClause e t2
  | .error e => gemma3CatchClause e t2

/-- A Tier-1 response body on which strict JSON decoding fails: either no
brace span exists, or `JSON.parse` throws on the greedy span. -/
def bodyUnparseable (s : String) : Bool :=
  match greedyJsonSpan s with
  | none => true
  | some span => (jsonParse span).isNone

/-- One row of the `ai_processing_queue` table (schema.sql lines 121-130):
no uniqueness constraint ties `(content_type, content_id)` to a single row,
and `result` is modelled as the record itself rather than its JSON text. -/
structure JobRow where
  contentType : String
  contentId : Nat
  status : String
  result : Option AnalysisRecord := none
  errorMessage : Option String := none
  processedAt : Bool := false

/-- The `WHERE content_id = $ AND content_type = $` filter shared by every
status update of the pipeline — note that it never constrains the current
`status`. -/
def rowKeyMatches (r : JobRow) (ct : String) (cid : Nat) : Bool :=
  r.contentId == cid && r.contentType == ct

/-- `UPDATE ai_processing_queue SET status='processing' WHERE …`. -/
def dbSetProcessing (db : List JobRow) (ct : String) (cid : Nat) : List JobRow :=
  db.map fun r => if rowKeyMatches r ct cid then { r with status := "processing" } else r

/-- `UPDATE … SET status='completed', result=…, processed_at=now WHERE …`. -/
def dbMarkCompleted (db : List JobRow) (ct : String) (cid : Nat)
    (a : AnalysisRecord) : List JobRow :=
  db.map fun r =>
    if rowKeyMatches r ct cid then
      { r with status := "completed", result := some a, processedAt := true }
    else r

/-- `UPDATE … SET status='failed', error_message=…, processed_at=now WHERE …`. -/
def dbMarkFailed (db : List JobRow) (ct : String) (cid : Nat)
    (msg : String) : List JobRow :=
  db.map fun r =>
    if rowKeyMatches r ct cid then
      { r with status := "failed", errorMessage := some msg, processedAt := true }
    else r

/-- Result of one run over the job table: the value returned (or exception
propagated), the final table, and the sequence of `status` values written
for the content key, in order. -/
structure RunOutcome where
  result : Except JsError AnalysisRecord
  db : List JobRow
  statusWrites : List String

/-- `Gemma3Service.processContent` (gemma3Service.js lines 335-373):
mark processing, fetch the content (`contentFound = false` covers both the
`Content not found` throw and the `Invalid content type` throw of
`getContent`), run the analysis (its outcome is the `analysisOutcome`
parameter), mark completed — or, in the catch, mark failed with the caught
message and re-throw.  The `updateContentWithAI` write touches only the
content tables, which are outside this row model. -/
def processContent (db : List JobRow) (ct : String) (cid : Nat)
    (contentFound : Bool) (analysisOutcome : Except JsError AnalysisRecord) :
    RunOutcome :=
  let db1 := dbSetProcessing db ct cid
  if !contentFound then
    { result := .error { message := "Content not found" },
      db := dbMarkFailed db1 ct cid "Content not found",
      statusWrites := ["processing", "failed"] }
  else
    match analysisOutcome with
    | .ok a =>
      { result := .ok a, db := dbMarkCompleted db1 ct cid a,
        statusWrites := ["processing", "completed"] }
    | .error e =>
      { result := .error e, db := dbMarkFailed db1 ct cid e.message,
        statusWrites := ["processing", "failed"] }

/-- Result of the inline dispatcher: `result` is `{success: true, result}`
on success, `.error` when the caught exception is re-thrown to the caller. -/
structure DispatchOutcome where
  result : Except JsError (Bool × AnalysisRecord)
  db : List JobRow
  statusWrites : List String

/-- The inline (no-Redis) branch of `QueueService.addAIAnalysisJob`
(queueService.js lines 50-73): mark processing, run
`gemma3Service.processContent`, mark completed and return `{success,
result}` — or, in the catch, mark failed with the caught message and
`throw error` again. -/
def addAIAnalysisJob (db : List JobRow) (ct : String) (cid : Nat)
    (contentFound : Bool) (analysisOutcome : Except JsError AnalysisRecord) :
    DispatchOutcome :=
  let db1 := dbSetProcessing db ct cid
  let run := processContent db1 ct cid contentFound analysisOutcome
  match run.result with
  | .ok a =>
    { result := .ok (true, a), db := dbMarkCompleted run.db ct cid a,
      statusWrites := "processing" :: run.statusWrites ++ ["completed"] }
  | .error e =>
    { result := .error e, db := dbMarkFailed run.db ct cid e.message,
      statusWrites := "processing" :: run.statusWrites ++ ["failed"] }

/-- State of the in-process Gemma3 request queue
(`this.requestQueue` / `this.isProcessing` / `this.currentRequest`,
gemma3Service.js lines 330-332) together with the event-loop clock, the
pending `setTimeout` deadlines, and a log of observable events: `started`
records (request id, start time) in the order the underlying transport sees
the requests, `completions` the times at which in-flight requests settled,
`enqueued` the submission order. -/
structure QState where
  queue : List Nat
  processing : Bool
  inFlight : Option Nat
  timers : List Nat
  now : Nat
  started : List (Nat × Nat)
  completions : List Nat
  enqueued : List Nat

/-- The initial queue state. -/
def initQ : QState :=
  { queue := [], processing := false, inFlight := none, timers := [],
    now := 0, started := [], completions := [], enqueued := [] }

/-- `processQueue` (gemma3Service.js lines 413-421): a no-op while busy or
empty, otherwise shift the head of the queue into the executing slot. -/
def runProcessQueue (s : QState) : QState :=
  match s.queue with
  | [] => s
  | r :: rest =>
    if s.processing then s
    else
      { s with
          queue := rest, processing := true, inFlight := some r,
          started := s.started ++ [(r, s.now)] }

/-- External events of the queue machine.  `enqueue r t`: at time `t` a
caller runs `generateAnalysisWithQueue` (push, then a synchronous
`processQueue`).  `complete t`: at time `t` the awaited `generateAnalysis`
of the in-flight request settles and its `finally` block runs (free the
slot; schedule a 1000 ms `setTimeout(processQueue)` if the queue is
non-empty, lines 430-437).  `timerFire`: the earliest pending timeout
callback runs.  Events may occur only at non-decreasing times. -/
inductive QEvent where
  | enqueue (r : Nat) (t : Nat)
  | complete (t : Nat)
  | timerFire

/-- One event step; `none` when the event is not enabled. -/
def stepQ (s : QState) : QEvent → Option QState
  | .enqueue r t =>
    if s.now ≤ t then
      some (runProcessQueue
        { s with now := t, queue := s.queue ++ [r], enqueued := s.enqueued ++ [r] })
    else none
  | .complete t =>
    match s.inFlight with
    | none => none
    | some _ =>
      if s.now ≤ t then
        let s1 :=
          { s with
              now := t, processing := false, inFlight := none,
              completions := s.completions ++ [t] }
        some (if s1.queue.isEmpty then s1 else { s1 with timers := s1.timers ++ [t + 1000] })
      else none
  | .timerFire =>
    match s.timers with
    | [] => none
    | tf :: rest =>
      if s.now ≤ tf then some (runProcessQueue { s with now := tf, timers := rest })
      else none

/-- Run a sequence of events from a state. -/
def runEvents (s : QState) : List QEvent → Option QState
  | [] => some s
  | e :: es =>
    match stepQ s e with
    | some s1 => runEvents s1 es
    | none => none

/-- The cool-down discipline claimed by the specification: every request
start that happens after some completion is separated from that completion
by at least the 1000 ms cool-down. -/
def coolDownRespected (s : QState) : Prop :=
  ∀ p ∈ s.started, ∀ c ∈ s.completions, c ≤ p.2 → c + 1000 ≤ p.2

instance (s : QState) : Decidable (coolDownRespected s) := by
  unfold coolDownRespected; infer_instance

/-- The single-flight counter invariant: the number of starts equals the
number of completions, plus one exactly while a request is executing — so a
new request can only start once the previous one has completed. -/
def singleFlightInv (s : QState) : Prop :=
  s.started.length = s.completions.length + (if s.processing then 1 else 0)
    ∧ (s.processing ↔ s.inFlight.isSome)

/-- The FIFO invariant: the ids already handed to the transport, in start
order, followed by the ids still queued, are exactly the ids in submission
order. -/
def fifoInv (s : QState) : Prop :=
  s.started.map Prod.fst ++ s.queue = s.enqueued

/-- The draft-content fields a caller may supply (and the fields
`getContent` selects); absent and empty-string fields are both falsy in the
source's checks.  Lengths below are code-point counts, which agree with JS
`.length` on the basic multilingual plane. -/
structure DraftContent where
  title : Option String := none
  purpose : Option String := none
  arabic_text : Option String := none
  english_meaning : Option String := none
  transliteration : Option String := none
  native_meaning : Option String := none
  source_reference : Option String := none
  content : Option String := none
  meaning : Option String := none

/-- JS truthiness of a possibly-absent string field. -/
def jsStrTruthy (o : Option String) : Bool :=
  match o with
  | some s => s != ""
  | none => false

/-- The `banglaTranslations` lookup of `generateLocalFallbackAnalysis`
(ai.js lines 422-431); unmapped suggestions pass through unchanged. -/
def banglaTranslation (s : String) : String :=
  if s == "Consider making the title more descriptive (at least 5 characters)" then
    "শিরোনামটি আরও বর্ণনামূলক করার কথা বিবেচনা করুন (কমপক্ষে ৫টি অক্ষর)"
  else if s == "Arabic text seems too short. Consider adding more content for better context" then
    "আরবি পাঠ খুব ছোট মনে হচ্ছে। আরও ভালো প্রসঙ্গের জন্য আরও বিষয়বস্তু যোগ করার কথা বিবেচনা করুন"
  else if s == "Meaning/translation could be more detailed to help users understand better" then
    "ব্যবহারকারীদের আরও ভালোভাবে বুঝতে সাহায্য করার জন্য অর্থ/অনুবাদ আরও বিস্তারিত হতে পারে"
  else if s == "Arabic text is required for duas" then
    "দুআর জন্য আরবি পাঠ প্রয়োজন"
  else if s == "Meaning/translation is important for duas" then
    "দুআর জন্য অর্থ/অনুবাদ গুরুত্বপূর্ণ"
  else if s == "Blog content should be more substantial (at least 100 characters)" then
    "ব্লগ বিষয়বস্তু আরও গুরুত্বপূর্ণ হওয়া উচিত (কমপক্ষে ১০০টি অক্ষর)"
  else if s == "Content structure looks good" then
    "বিষয়বস্তুর কাঠামো ভালো"
  else if s == "Consider adding more context or examples if applicable" then
    "প্রযোজ্য হলে আরও প্রসঙ্গ বা উদাহরণ যোগ করার কথা বিবেচনা করুন"
  else s

/-- `generateLocalFallbackAnalysis` (ai.js lines 382-438): the fixed rule
set, the default pair when no rule fires, the Bengali translation map,
confidence 0.6 and source tag. -/
def generateLocalFallbackAnalysis (contentType : String) (content : DraftContent) :
    AnalysisRecord :=
  let sgs : List String :=
    (if jsStrTruthy content.title && (content.title.getD "").length < 5 then
      ["Consider making the title more descriptive (at least 5 characters)"] else [])
    ++ (if jsStrTruthy content.arabic_text && (content.arabic_text.getD "").length < 10 then
      ["Arabic text seems too short. Consider adding more content for better context"] else [])
    ++ (if jsStrTruthy content.meaning && (content.meaning.getD "").length < 20 then
      ["Meaning/translation could be more detailed to help users understand better"] else [])
    ++ (if contentType == "dua" && !jsStrTruthy content.arabic_text then
      ["Arabic text is required for duas"] else [])
    ++ (if contentType == "dua" && !jsStrTruthy content.meaning then
      ["Meaning/translation is important for duas"] else [])
    ++ (if contentType == "blog"
          && (!jsStrTruthy content.content || (content.content.getD "").length < 100) then
      ["Blog content should be more substantial (at least 100 characters)"] else [])
  let sgs := if sgs.isEmpty then
    ["Content structure looks good", "Consider adding more context or examples if applicable"]
    else sgs
  { summary := .str ("স্থানীয় যাচাই ব্যবহার করে " ++ contentType ++ " বিষয়বস্তুর মৌলিক বিশ্লেষণ সম্পন্ন হয়েছে।"),
    corrections := sgs.map (fun s => .str (banglaTranslation s)),
    authenticity := .str "বিষয়বস্তু সঠিকভাবে ফরম্যাট করা হয়েছে। বিস্তারিত ইসলামী সত্যতা যাচাইয়ের জন্য, বাহ্যিক AI পরিষেবা বর্তমানে অনুপলব্ধ।",
    confidence := .num (3 / 5),
    source := some "local_fallback" }

/-- The HTTP response of the draft-analysis route. -/
structure DraftResponse where
  httpStatus : Nat
  bodyStatus : Option String := none
  analysis : Option AnalysisRecord := none
  error : Option String := none

/-- `POST /api/ai/analyze-draft` (ai.js lines 518-558): validation, then the
three-tier chain — Gemma3, on any throw the original AI service, on a second
throw the local fallback.  The two `Except` parameters are the outcomes of
the two remote service calls. -/
def analyzeDraft (contentType : String) (content : Option DraftContent)
    (gemma3Outcome aiOutcome : Except JsError AnalysisRecord) : DraftResponse :=
  if !(["dua", "blog", "question", "answer"].contains contentType) then
    { httpStatus := 400, error := some "Invalid content type" }
  else
    match content with
    | none => { httpStatus := 400, error := some "Content is required for analysis" }
    | some c =>
      if !jsStrTruthy c.title && !jsStrTruthy c.arabic_text then
        { httpStatus := 400, error := some "Content is required for analysis" }
      else
        let analysis :=
          match gemma3Outcome with
          | .ok a => a
          | .error _ =>
            match aiOutcome with
            | .ok a => a
            | .error _ => generateLocalFallbackAnalysis contentType c
        { httpStatus := 200, bodyStatus := some "completed", analysis := some analysis }

/-- `content.field || 'Not specified'`. -/
def orNotSpecified (o : Option String) : String :=
  match o with
  | some s => if s == "" then "Not specified" else s
  | none => "Not specified"

/-- `content.source_reference || 'N/A'`. -/
def orNA (o : Option String) : String :=
  match o with
  | some s => if s == "" then "N/A" else s
  | none => "N/A"

/-- The constant remainder of the prompt template of
`Gemma3Service.buildPrompt` (gemma3Service.js lines 495-527), following the
`Source Reference` line verbatim. -/
def promptTail : String :=
  "\n"
  ++ "\n"
  ++ "Check the contents for any issues and provide a summary of the content correction and suggestions.\n"
  ++ "- Do not use md styling only use with plain text.\n"
  ++ "- Show the output as json format. Each correction will be as a array element.\n"
  ++ "- Proive bangla and english for the correction and suggestions.\n"
  ++ "- If ther is no correction need the correction array will be empty . \n"
  ++ "- Here is a sample output struture \n"
  ++ "\n"
  ++ "\x7b\n"
  ++ "    \"analysis\": \x7b\n"
  ++ "      \"title\": \" জাহান্নাম থেকে মুক্তি\",\n"
  ++ "      \"purpose\": \"Not specified\",\n"
  ++ "      \"arabic_text\": \" اللَّهُمَّ أَجِرْنِى مِ\",\n"
  ++ "      \"english_meaning\": \"O Allah! Save me from the fire of Hell.\",\n"
  ++ "      \"transliteration\": \"আল্লাহুম্মা আজিরনি মিনান নার।\",\n"
  ++ "      \"native_meaning\": \"হে আল্লাহ! আমাকে\",\n"
  ++ "      \"source_reference\": \"N/A\"\n"
  ++ "    \x7d,\n"
  ++ "    \"corrections\": [\n"
  ++ "      \x7b\n"
  ++ "        \"field\": \"title\",\n"
  ++ "        \"issue_english\": \"Descriptive, not standard for a du\x27a.\",\n"
  ++ "        \"issue_bangla\": \"বর্ণনমূলক, একটি দু\x27য়ার জন্য আদর্শ নয়।\",\n"
  ++ "        \"suggestion_english\": \"Du\x27a for Protection from Hellfire\",\n"
  ++ "        \"suggestion_bangla\": \"জাহান্নাম থেকে সুরক্ষার জন্য দু\x27আ\"\n"
  ++ "      \x7d\n"
  ++ "    ],\n"
  ++ "    \"summary\": \x7b\n"
  ++ "      \"english\": \"The provided content contains several inaccuracies, primarily due to an incomplete Arabic text. Corrections include completing the Arabic and Bengali text, refining the transliteration, providing a more accurate English meaning, suggesting a better title, and emphasizing the need to specify a purpose and source reference. These changes improve the content\x27s accuracy, clarity, and usefulness.\",\n"
  ++ "      \"bangla\": \"প্রদত্ত অংশে বেশ কিছু ভুল রয়েছে, যার প্রধান কারণ হল একটি অসম্পূর্ণ আরবি পাঠ। সংশোধনগুলির মধ্যে আরবি এবং বাংলা পাঠ সম্পূর্ণ করা, প্রতিবর্ণীকরণ পরিমার্জন করা, আরও সঠিক ইংরেজি অর্থ প্রদান করা, একটি ভাল শিরোনাম প্রস্তাব করা এবং উদ্দেশ্য ও উৎস উল্লেখ করার প্রয়োজনীয়তার উপর জোর দেওয়া অন্তর্ভুক্ত। এই পরিবর্তনগুলি সামগ্রীর নির্ভুলতা, স্পষ্টতা এবং উপযোগিতা বৃদ্ধি করে।\"\n"
  ++ "    \x7d\n"
  ++ "  \x7d\n"
  ++ "\n"
  ++ "output:"

/-- `Gemma3Service.buildPrompt` (lines 485-530): a single template for every
content kind — the `contentType` argument is never read, and only the seven
dua-shaped fields are interpolated, each with its falsy-default
placeholder. -/
def buildPrompt (contentType : String) (content : DraftContent) : String :=
  "Content to analyze:\nTitle: " ++ orNotSpecified content.title
    ++ "\nPurpose: " ++ orNotSpecified content.purpose
    ++ "\nArabic Text: " ++ orNotSpecified content.arabic_text
    ++ "\nEnglish Meaning: " ++ orNotSpecified content.english_meaning
    ++ "\nTransliteration: " ++ orNotSpecified content.transliteration
    ++ "\nNative Meaning: " ++ orNotSpecified content.native_meaning
    ++ "\nSource Reference: " ++ orNA content.source_reference
    ++ promptTail

/-- Is this JSON value the given string? -/
def jsonIsStr (j : Json) (s : String) : Bool :=
  match j with
  | .str t => t == s
  | _ => false

/-- Does a correction entry carry `field = "title"`? -/
def corrHasTitleField (j : Json) : Bool :=
  match jsProp j "field" with
  | some v => jsonIsStr v "title"
  | none => false

/-- Does the record's corrections sequence contain an entry with
`field = "title"`? -/
def recordHasTitleCorrection (r : AnalysisRecord) : Bool :=
  r.corrections.any corrHasTitleField

/-- Does a correction entry refer to the title in any of its forms — as a
structured `field`, or as the word `title`/`Title`/`শিরোনাম` inside a plain
suggestion string? -/
def mentionsTitle (j : Json) : Bool :=
  corrHasTitleField j ||
    (match j with
     | .str s => hasSub s "title" || hasSub s "Title" || hasSub s "শিরোনাম"
     | _ => false)

/-- The specification's truncation example: `analysis` block, a
`corrections` entry with `field = "title"`, and the closing `]`/`\x7d`
missing (cut immediately after the corrections entry, before any `summary`
key). -/
def specTruncated : String :=
  "\x7b\"analysis\":\x7b\"title\":\"t\"\x7d,\"corrections\":[\x7b\"field\":\"title\",\"issue_english\":\"x\"\x7d"

/-- The same generation truncated a little later: the `summary` object has
been emitted (its closing braces lost), so only closers are missing. -/
def truncatedAfterSummary : String :=
  "\x7b\"analysis\":\x7b\"title\":\"t\"\x7d,\"corrections\":[\x7b\"field\":\"title\",\"issue_english\":\"x\"\x7d],\"summary\":\x7b\"english\":\"e\",\"bangla\":\"b\""

/-- A complete, well-formed three-key response body (a successful structured
parse). -/
def goodStructuredBody : String :=
  "\x7b\"analysis\":\x7b\"title\":\"t\"\x7d,\"corrections\":[],\"summary\":\x7b\"english\":\"e\",\"bangla\":\"b\"\x7d\x7d"

/-- A Tier-1 HTTP-200 body that is not JSON at all. -/
def plainTextBody : String := "Summary: all good"

/-- A 503-class transport error. -/
def err503 : JsError := { status := some 503, message := "Service Unavailable" }

/-- A non-503 transport failure (both tiers unreachable). -/
def errConnRefused : JsError := { message := "connect ECONNREFUSED" }

/-- A generic analysis failure used in dispatcher scenarios. -/
def errBoom : JsError := { message := "boom" }

/-- A job table holding one pending row for (dua, 1). -/
def pendingDb : List JobRow :=
  [{ contentType := "dua", contentId := 1, status := "pending" }]

/-- A job table holding one already-completed row for (dua, 7). -/
def completedRow : JobRow :=
  { contentType := "dua", contentId := 7, status := "completed", processedAt := true }

/-- The spec's end-to-end draft content: empty title, one-character Arabic
text, nothing else. -/
def c8Content : DraftContent := { title := some "", arabic_text := some "x" }

/-- Three queue submissions: requests 1 and 2 at t=0, request 1 completing
at t=100 (scheduling the 1000 ms cool-down timer), and request 3 arriving at
t=200 — whose synchronous `processQueue` starts request 2 only 100 ms after
the completion. -/
def coolDownTrace : List QEvent :=
  [.enqueue 1 0, .enqueue 2 0, .complete 100, .enqueue 3 200]

/-- The state reached by `coolDownTrace`. -/
def coolDownFinal : QState :=
  { queue := [3], processing := true, inFlight := some 2, timers := [1100],
    now := 200, started := [(1, 0), (2, 200)], completions := [100],
    enqueued := [1, 2, 3] }

/-- A blog draft whose body is the marker text `BODYTEXT42`. -/
def blogWithBody : DraftContent :=
  { title := some "T", content := some "BODYTEXT42" }


/-- A blog draft without body, used to measure the prompt. -/
def c9Base : DraftContent := { title := some "T" }

/-- A body text strictly longer than the whole prompt built for `c9Base`. -/
def c9Body : String := buildPrompt "blog" c9Base ++ "x"

/-- The same blog draft carrying `c9Body` as its body. -/
def c9Blog : DraftContent := { title := some "T", content := some c9Body }

set_option maxRecDepth 8000

theorem startsL_length {p cs : List Char} (h : startsL p cs = true) :
    p.length ≤ cs.length := by
  induction p generalizing cs with
  | nil => simp
  | cons a ps ih =>
    cases cs with
    | nil => simp [startsL] at h
    | cons c cs' =>
      simp only [startsL, Bool.and_eq_true] at h
      simpa using ih h.2

theorem hasSubL_length {p cs : List Char} (h : hasSubL p cs = true) :
    p.length ≤ cs.length := by
  induction cs with
  | nil =>
    have h0 : startsL p [] = true := by simpa [hasSubL] using h
    simpa using startsL_length h0
  | cons c cs' ih =>
    simp only [hasSubL, Bool.or_eq_true] at h
    rcases h with h | h
    · exact startsL_length h
    · exact le_trans (ih h) (by simp)

theorem hasSub_length {s pat : String} (h : hasSub s pat = true) :
    pat.length ≤ s.length :=
  hasSubL_length (show hasSubL pat.toList s.toList = true from h)

theorem parseAIResponseE_eq_ok (s : String) :
    parseAIResponseE s = Except.ok (parseAIResponse s) := by
  unfold parseAIResponse parseAIResponseE
  cases h : tryBody s <;> rfl

theorem structuredRecord_conf {j : Json} {r : AnalysisRecord}
    (h : structuredRecord j = .ok r) : r.confidence = Json.num (4 / 5) := by
  unfold structuredRecord at h
  cases hc : correctionsOf ((jsProp j "corrections").getD .null) <;> rw [hc] at h
  · exact absurd h (by simp)
  · injection h with h'
    subst h'
    rfl

theorem parse_of_noSpan {s : String} (h : greedyJsonSpan s = none) :
    parseAIResponse s = textFallbackRecord s := by
  unfold parseAIResponse parseAIResponseE tryBody
  rw [h]

theorem parse_of_decodeFail {s span : String} (h1 : greedyJsonSpan s = some span)
    (h2 : jsonParse span = none) : parseAIResponse s = catchBlock s := by
  unfold parseAIResponse parseAIResponseE tryBody
  rw [h1]
  simp only [h2]

theorem textFallback_conf (s : String) :
    (textFallbackRecord s).confidence = Json.num (4 / 5) := rfl

theorem catchRepair_some_conf {s : String} {r : AnalysisRecord}
    (h : catchRepair s = .ok (some r)) : r.confidence = Json.num (4 / 5) := by
  unfold catchRepair at h
  split at h
  · exact absurd h (by simp)
  · split at h
    · exact absurd h (by simp)
    · split at h
      · split at h
        · rename_i r' hsr
          injection h with h1
          injection h1 with h2
          subst h2
          exact structuredRecord_conf hsr
        · exact absurd h (by simp)
      · exact absurd h (by simp)

theorem catchBlock_conf (s : String) :
    (catchBlock s).confidence = Json.num 0 ∨ (catchBlock s).confidence = Json.num (4 / 5) := by
  unfold catchBlock
  cases hc : catchRepair s with
  | error e => exact Or.inl rfl
  | ok o =>
    cases o with
    | none => exact Or.inl rfl
    | some r => exact Or.inr (catchRepair_some_conf hc)

theorem rowKeyMatches_setFields (r : JobRow) (ct : String) (cid : Nat) (st : String)
    (res : Option AnalysisRecord) (em : Option String) (pa : Bool) :
    rowKeyMatches
      { contentType := r.contentType, contentId := r.contentId, status := st,
        result := res, errorMessage := em, processedAt := pa } ct cid
      = rowKeyMatches r ct cid := rfl

theorem dispatchFail_db (db : List JobRow) (ct : String) (cid : Nat) (m : String) :
    dbMarkFailed (dbMarkFailed (dbSetProcessing (dbSetProcessing db ct cid) ct cid) ct cid m)
        ct cid m
      = db.map (fun r => if rowKeyMatches r ct cid then
          { r with status := "failed", errorMessage := some m, processedAt := true } else r) := by
  induction db with
  | nil => rfl
  | cons r rest ih =>
    simp only [dbSetProcessing, dbMarkFailed, List.map_cons] at ih ⊢
    rw [ih]
    cases hm : rowKeyMatches r ct cid <;> simp [rowKeyMatches_setFields, hm]

theorem runProcessQueue_inv {s : QState} (h1 : singleFlightInv s) (h2 : fifoInv s) :
    singleFlightInv (runProcessQueue s) ∧ fifoInv (runProcessQueue s) := by
  cases hq : s.queue with
  | nil =>
    have hred : runProcessQueue s = s := by
      unfold runProcessQueue
      rw [hq]
    rw [hred]
    exact ⟨h1, h2⟩
  | cons r rest =>
    cases hp : s.processing with
    | true =>
      have hred : runProcessQueue s = s := by
        unfold runProcessQueue
        rw [hq, hp]
        rfl
      rw [hred]
      exact ⟨h1, h2⟩
    | false =>
      have hred : runProcessQueue s =
          { s with
              queue := rest, processing := true, inFlight := some r,
              started := s.started ++ [(r, s.now)] } := by
        unfold runProcessQueue
        rw [hq, hp]
        rfl
      rw [hred]
      constructor
      · unfold singleFlightInv at h1 ⊢
        rw [hp] at h1
        have h0 : s.started.length = s.completions.length := by simpa using h1.1
        exact ⟨by simp [h0], by simp⟩
      · unfold fifoInv at h2 ⊢
        rw [hq] at h2
        rw [← h2]
        simp

theorem stepQ_inv {s s' : QState} {e : QEvent} (hs : stepQ s e = some s')
    (h1 : singleFlightInv s) (h2 : fifoInv s) :
    singleFlightInv s' ∧ fifoInv s' := by
  cases e with
  | enqueue r t =>
    simp only [stepQ] at hs
    split at hs
    · injection hs with hs'
      subst hs'
      apply runProcessQueue_inv
      · unfold singleFlightInv at h1 ⊢
        simpa using h1
      · unfold fifoInv at h2 ⊢
        simp only []
        rw [← List.append_assoc, h2]
    · exact absurd hs (by simp)
  | complete t =>
    simp only [stepQ] at hs
    split at hs
    · exact absurd hs (by simp)
    · split at hs
      · injection hs with hs'
        subst hs'
        rename_i v hv _
        have hproc : s.processing = true := by
          rcases h1.2.2 with hiff
          have : s.inFlight.isSome = true := by rw [hv]; rfl
          by_cases hpp : s.processing = true
          · exact hpp
          · exact absurd (h1.2.mpr (by simp [hv])) hpp
        have hcnt : s.started.length = s.completions.length + 1 := by
          have := h1.1
          rw [hproc] at this
          simpa using this
        constructor
        · unfold singleFlightInv
          split <;>
            simp [singleFlightInv, List.length_append, hcnt]
        · unfold fifoInv at h2 ⊢
          split <;> simpa using h2
      · exact absurd hs (by simp)
  | timerFire =>
    simp only [stepQ] at hs
    split at hs
    · exact absurd hs (by simp)
    · split at hs
      · injection hs with hs'
        subst hs'
        apply runProcessQueue_inv
        · unfold singleFlightInv at h1 ⊢
          simpa using h1
        · unfold fifoInv at h2 ⊢
          simpa using h2
      · exact absurd hs (by simp)

theorem runEvents_inv : ∀ (evs : List QEvent) (s0 s : QState),
    singleFlightInv s0 → fifoInv s0 → runEvents s0 evs = some s →
    singleFlightInv s ∧ fifoInv s := by
  intro evs
  induction evs with
  | nil =>
    intro s0 s h1 h2 h
    injection h with h'
    subst h'
    exact ⟨h1, h2⟩
  | cons e es ih =>
    intro s0 s h1 h2 h
    unfold runEvents at h
    cases hst : stepQ s0 e <;> rw [hst] at h
    · exact absurd h (by simp)
    · have hp := stepQ_inv hst h1 h2
      exact ih _ s hp.1 hp.2 h

/-- C1: the response parser is total — for every string input the outer
try/catch returns a normalized `AnalysisRecord` (carrying the summary,
corrections, authenticity and confidence fields of that type) and never
propagates an exception to its caller. -/
theorem parseAIResponse_total_and_contained (s : String) :
    parseAIResponseE s = Except.ok (parseAIResponse s) :=
  parseAIResponseE_eq_ok s

/-- C2 counterexample: on the specification's exact truncation example
(cut after the `corrections` entry, before any `summary` key) the parser
returns the fixed confidence-0 placeholder, whose corrections contain no
`field = "title"` entry. -/
theorem parseAIResponse_spec_truncation_returns_placeholder :
    parseAIResponse specTruncated = fullFailureRecord
      ∧ recordHasTitleCorrection (parseAIResponse specTruncated) = false :=
  ⟨rfl, rfl⟩

/-- C2 (amended): the catch block does count unmatched braces/brackets and
append the missing closers before one strict re-decode — on the spec's
example it appends `]\x7d` — but the repaired object is used only when it has
all three of `analysis`/`corrections`/`summary`; a generation truncated
after the summary was emitted recovers `corrections[0].field = "title"` at
confidence 0.8. -/
theorem parseAIResponse_truncation_repair_behavior :
    String.mk (appendClosers (bengaliHack ((lazySpan specTruncated).getD [])))
        = specTruncated ++ "]\x7d"
      ∧ String.mk (appendClosers (bengaliHack ((lazySpan truncatedAfterSummary).getD [])))
        = truncatedAfterSummary ++ "\x7d\x7d"
      ∧ parseAIResponse truncatedAfterSummary =
          { summary := .obj [("english", .str "e"), ("bangla", .str "b")],
            corrections := [.obj [("field", .str "title"), ("issue_english", .str "x"),
              ("issue_bangla", .str ""), ("suggestion_english", .str ""),
              ("suggestion_bangla", .str "")]],
            authenticity := .obj [("english", .str "Content analysis completed"),
              ("bangla", .str "বিষয়বস্তু বিশ্লেষণ সম্পন্ন হয়েছে")],
            confidence := .num (4 / 5) }
      ∧ recordHasTitleCorrection (parseAIResponse truncatedAfterSummary) = true :=
  ⟨rfl, rfl, rfl, rfl⟩

/-- C3: when the Tier-1 transport fails with a 503-class error, the Tier-2
service is invoked exactly once and Tier-1 is never retried — the call
trace is exactly one Tier-1 call followed by one Tier-2 call. -/
theorem tier2_invoked_once_on_503 (e : JsError) (t2 : Except JsError AnalysisRecord)
    (h : is503Class e = true) :
    gemma3GenerateAnalysis (.error e) t2 = (t2, [gemma3Call, aiServiceCall])
      ∧ ([gemma3Call, aiServiceCall].filter (fun c => c.tier == 2)).length = 1
      ∧ ([gemma3Call, aiServiceCall].filter (fun c => c.tier == 1)).length = 1 := by
  refine ⟨?_, rfl, rfl⟩
  unfold gemma3GenerateAnalysis gemma3CatchClause
  simp [h]

/-- C3 witness at a concrete 503 error. -/
theorem tier2_invoked_once_on_503_witness :
    is503Class err503 = true
      ∧ gemma3GenerateAnalysis (.error err503) (.ok fullFailureRecord)
          = (.ok fullFailureRecord, [gemma3Call, aiServiceCall]) :=
  ⟨rfl, (tier2_invoked_once_on_503 err503 (.ok fullFailureRecord) rfl).1⟩

/-- C4 counterexample: a 200 body that is not JSON is handled without any
Tier-2 call (that part of the claim holds), but it flows through the text
fallback at confidence 0.8 — exactly the confidence of a successful
structured parse, so the claimed strict inequality fails. -/
theorem parse_failure_confidence_not_strictly_lower :
    (gemma3GenerateAnalysis (.ok plainTextBody) (.error errConnRefused)).2 = [gemma3Call]
      ∧ (parseAIResponse plainTextBody).confidence = Json.num (4 / 5)
      ∧ (parseAIResponse goodStructuredBody).confidence = Json.num (4 / 5)
      ∧ ¬((4 : ℚ) / 5 < (4 : ℚ) / 5) :=
  ⟨rfl, rfl, rfl, lt_irrefl _⟩

/-- C4 (amended): on any JSON-unparseable 200 body the Tier-2 service is
never invoked, and the resulting confidence is 0 (total recovery failure)
or 0.8 (text fallback / repaired decode) — never above, but possibly equal
to, the 0.8 of a successful structured parse. -/
theorem no_tier2_on_parse_failure (body : String) (t2 : Except JsError AnalysisRecord)
    (h : bodyUnparseable body = true) :
    (gemma3GenerateAnalysis (.ok body) t2).2 = [gemma3Call]
      ∧ ((parseAIResponse body).confidence = Json.num 0
          ∨ (parseAIResponse body).confidence = Json.num (4 / 5)) := by
  constructor
  · unfold gemma3GenerateAnalysis
    simp only [parseAIResponseE_eq_ok body]
  · unfold bodyUnparseable at h
    cases hg : greedyJsonSpan body with
    | none =>
      rw [parse_of_noSpan hg]
      exact Or.inr (textFallback_conf body)
    | some span =>
      rw [hg] at h
      have h' : (jsonParse span).isNone = true := h
      have hj : jsonParse span = none := by
        simpa using h'
      rw [parse_of_decodeFail hg hj]
      exact catchBlock_conf body

/-- C4 witness at a concrete non-JSON body. -/
theorem no_tier2_on_parse_failure_witness :
    bodyUnparseable plainTextBody = true
      ∧ ((gemma3GenerateAnalysis (.ok plainTextBody) (.error errConnRefused)).2 = [gemma3Call]
          ∧ ((parseAIResponse plainTextBody).confidence = Json.num 0
              ∨ (parseAIResponse plainTextBody).confidence = Json.num (4 / 5))) :=
  ⟨rfl, no_tier2_on_parse_failure plainTextBody (.error errConnRefused) rfl⟩

/-- C5 counterexample: when inline execution fails, the dispatcher does
convert the row to `failed` with the caught message — but it then re-throws,
so the exception does escape to the caller instead of a pollable handle
being returned. -/
theorem inline_failure_rethrown :
    (addAIAnalysisJob pendingDb "dua" 1 true (.error errBoom)).result = .error errBoom
      ∧ (addAIAnalysisJob pendingDb "dua" 1 true (.error errBoom)).db
          = [{ contentType := "dua", contentId := 1, status := "failed",
               errorMessage := some "boom", processedAt := true }] :=
  ⟨rfl, rfl⟩

/-- C5 (amended): a failure during inline execution is caught, every row of
the content key is marked `failed` carrying the caught message — and the
error is then re-thrown to the dispatcher's caller (`throw error`,
queueService.js line 72), so the call rejects rather than returning a
handle. -/
theorem inline_failure_marks_failed_and_rethrows (db : List JobRow) (ct : String)
    (cid : Nat) (e : JsError) :
    (addAIAnalysisJob db ct cid true (.error e)).result = .error e
      ∧ (addAIAnalysisJob db ct cid true (.error e)).db
          = db.map (fun r => if rowKeyMatches r ct cid then
              { r with status := "failed", errorMessage := some e.message, processedAt := true }
            else r)
      ∧ (addAIAnalysisJob db ct cid true (.error e)).statusWrites
          = ["processing", "processing", "failed", "failed"] := by
  refine ⟨rfl, ?_, rfl⟩
  show dbMarkFailed (dbMarkFailed (dbSetProcessing (dbSetProcessing db ct cid) ct cid)
      ct cid e.message) ct cid e.message = _
  exact dispatchFail_db db ct cid e.message

/-- C6 counterexample: a row already `completed` is not immune — reprocessing
the same content key rewrites it to `processing` and then to `failed`,
because every status update is keyed only on (contentType, contentId). -/
theorem completed_row_overwritten_by_reprocess :
    completedRow.status = "completed"
      ∧ ((processContent [completedRow] "dua" 7 true (.error errBoom)).db.map JobRow.status)
          = ["failed"] :=
  ⟨rfl, rfl⟩

/-- C6 (amended): within a single `processContent` run the status writes for
the content key are forward-only — `processing` followed by exactly one
terminal `completed`/`failed`; terminal rows are only overwritten by a
subsequent run, whose writes are unconditional on the current status. -/
theorem processContent_writes_forward_in_run (db : List JobRow) (ct : String) (cid : Nat)
    (found : Bool) (outcome : Except JsError AnalysisRecord) :
    ∃ t, (t = "completed" ∨ t = "failed")
      ∧ (processContent db ct cid found outcome).statusWrites = ["processing", t] := by
  cases found
  · exact ⟨"failed", Or.inr rfl, rfl⟩
  · cases outcome with
    | ok a => exact ⟨"completed", Or.inl rfl, rfl⟩
    | error e => exact ⟨"failed", Or.inr rfl, rfl⟩

/-- C7 counterexample: after the completion at t=100 the cool-down timer is
set for t=1100, but the enqueue arriving at t=200 runs `processQueue`
synchronously and starts the next queued request at t=200 — only 100 ms
after the completion, violating the claimed 1-second spacing. -/
theorem cooldown_not_enforced_on_enqueue :
    runEvents initQ coolDownTrace = some coolDownFinal
      ∧ (2, 200) ∈ coolDownFinal.started
      ∧ 100 ∈ coolDownFinal.completions
      ∧ coolDownFinal.timers = [1100]
      ∧ ¬ coolDownRespected coolDownFinal :=
  ⟨rfl, by decide, by decide, rfl, by decide⟩

/-- C7 (amended): in every reachable queue state at most one request is
executing (a start can only follow the previous completion) and requests
start in FIFO submission order; the 1-second cool-down, however, only
delays timer-triggered starts and is not enforced against starts triggered
by a new enqueue. -/
theorem queue_single_flight_and_fifo (evs : List QEvent) (s : QState)
    (h : runEvents initQ evs = some s) :
    singleFlightInv s ∧ fifoInv s :=
  runEvents_inv evs initQ s
    (by unfold singleFlightInv initQ; simp)
    (by unfold fifoInv initQ; simp)
    h

/-- C7 witness on the concrete four-event trace. -/
theorem queue_single_flight_and_fifo_witness :
    singleFlightInv coolDownFinal ∧ fifoInv coolDownFinal :=
  queue_single_flight_and_fifo coolDownTrace coolDownFinal rfl

/-- C8 counterexample: for the spec's end-to-end input (`title:"",
arabic_text:"x"`, both tiers down) every other expectation holds, but no
correction flags the missing title — the title rule only fires for
truthy titles shorter than 5 characters, and an empty title is falsy. -/
theorem local_fallback_does_not_flag_title :
    (analyzeDraft "dua" (some c8Content) (.error errConnRefused)
        (.error errConnRefused)).analysis
        = some (generateLocalFallbackAnalysis "dua" c8Content)
      ∧ ((generateLocalFallbackAnalysis "dua" c8Content).corrections.map mentionsTitle)
          = [false, false] :=
  ⟨rfl, rfl⟩

/-- C8 (amended): with both remote tiers unreachable the draft analysis of
`{title:"", arabic_text:"x"}` completes (HTTP 200, status `completed`) with
the local-fallback record — confidence 0.6, source `local_fallback`, and a
non-empty corrections list flagging the short Arabic text and the missing
meaning (the empty title goes unflagged). -/
theorem local_fallback_end_to_end_completed :
    (analyzeDraft "dua" (some c8Content) (.error errConnRefused)
        (.error errConnRefused)).httpStatus = 200
      ∧ (analyzeDraft "dua" (some c8Content) (.error errConnRefused)
          (.error errConnRefused)).bodyStatus = some "completed"
      ∧ (analyzeDraft "dua" (some c8Content) (.error errConnRefused)
          (.error errConnRefused)).analysis
          = some (generateLocalFallbackAnalysis "dua" c8Content)
      ∧ (generateLocalFallbackAnalysis "dua" c8Content).confidence = Json.num (3 / 5)
      ∧ (generateLocalFallbackAnalysis "dua" c8Content).source = some "local_fallback"
      ∧ (generateLocalFallbackAnalysis "dua" c8Content).corrections
          = [Json.str "আরবি পাঠ খুব ছোট মনে হচ্ছে। আরও ভালো প্রসঙ্গের জন্য আরও বিষয়বস্তু যোগ করার কথা বিবেচনা করুন",
             Json.str "দুআর জন্য অর্থ/অনুবাদ গুরুত্বপূর্ণ"]
      ∧ (generateLocalFallbackAnalysis "dua" c8Content).corrections ≠ [] := by
  refine ⟨rfl, rfl, rfl, rfl, rfl, rfl, ?_⟩
  intro hc
  rw [show (generateLocalFallbackAnalysis "dua" c8Content).corrections
      = [Json.str "আরবি পাঠ খুব ছোট মনে হচ্ছে। আরও ভালো প্রসঙ্গের জন্য আরও বিষয়বস্তু যোগ করার কথা বিবেচনা করুন",
         Json.str "দুআর জন্য অর্থ/অনুবাদ গুরুত্বপূর্ণ"] from rfl] at hc
  simp at hc

/-- C9 counterexample: the prompt built for a blog is unchanged when the
body is removed, and a body longer than the whole prompt cannot occur in
it — the body text is never embedded. -/
theorem blog_body_not_embedded_in_prompt :
    c9Blog.content = some c9Body
      ∧ buildPrompt "blog" c9Blog = buildPrompt "blog" c9Base
      ∧ hasSub (buildPrompt "blog" c9Blog) c9Body = false := by
  refine ⟨rfl, rfl, ?_⟩
  cases hh : hasSub (buildPrompt "blog" c9Blog) c9Body
  · rfl
  · exfalso
    have hlen : c9Body.length ≤ (buildPrompt "blog" c9Blog).length := hasSub_length hh
    have he : (buildPrompt "blog" c9Blog).length = (buildPrompt "blog" c9Base).length := rfl
    rw [he] at hlen
    have hb : c9Body.length = (buildPrompt "blog" c9Base).length + "x".length := by
      unfold c9Body
      exact String.length_append _ _
    rw [hb] at hlen
    have hx : "x".length = 1 := rfl
    omega

/-- C9 (amended): `buildPrompt` uses one dua-shaped template for every
content kind — the kind argument and the body/meaning fields never affect
the prompt — and missing fields are rendered as the `Not specified` (or
`N/A` for the source reference) placeholders. -/
theorem buildPrompt_single_template_with_placeholders (k1 k2 : String) (c : DraftContent)
    (b : Option String) :
    buildPrompt k1 c = buildPrompt k2 c
      ∧ buildPrompt k1 { c with content := b } = buildPrompt k1 c
      ∧ buildPrompt k1 { c with meaning := b } = buildPrompt k1 c
      ∧ hasSub (buildPrompt "dua" {}) "Title: Not specified" = true
      ∧ hasSub (buildPrompt "dua" {}) "Source Reference: N/A" = true :=
  ⟨rfl, rfl, rfl, rfl, rfl⟩

/-- C10 counterexample: the tried-first (Tier-1) request is the Gemma3 call
with budget 2000 tokens, temperature 0.3 and a 45 s timeout — not the
claimed ≈800/0.6/60 s — and it carries no top-k or repetition penalty; the
fallback (Tier-2) call is the one using 800/0.6/top-k 50/penalty 1.1/60 s. -/
theorem tier_parameters_swapped :
    (gemma3GenerateAnalysis (.error err503) (.ok fullFailureRecord)).2
        = [gemma3Call, aiServiceCall]
      ∧ gemma3Call.tokenBudget = 2000 ∧ ¬(gemma3Call.tokenBudget = 800)
      ∧ gemma3Call.temperature = 3 / 10 ∧ ¬(gemma3Call.temperature = 6 / 10)
      ∧ gemma3Call.timeoutMs = 45000 ∧ ¬(gemma3Call.timeoutMs = 60000)
      ∧ gemma3Call.topK = none ∧ gemma3Call.repetitionPenalty = none
      ∧ aiServiceCall.tokenBudget = 800 ∧ aiServiceCall.temperature = 6 / 10
      ∧ aiServiceCall.topK = some 50 ∧ aiServiceCall.repetitionPenalty = some (11 / 10)
      ∧ aiServiceCall.timeoutMs = 60000 :=
  ⟨rfl, rfl,
    by simp only [show gemma3Call.tokenBudget = 2000 from rfl]; decide,
    rfl,
    by simp only [show gemma3Call.temperature = 3 / 10 from rfl]; norm_num,
    rfl,
    by simp only [show gemma3Call.timeoutMs = 45000 from rfl]; decide,
    rfl, rfl, rfl, rfl, rfl, rfl, rfl⟩

/-- C10 (amended): every trace of `generateAnalysis` begins with the Gemma3
(Tier-1) request — max 2000 tokens, temperature 0.3, nucleus p 0.9, 45 s
timeout — and the secondary (Tier-2) request is the Hugging Face inference
call with 800 new tokens, temperature 0.6, p 0.9, top-k 50, repetition
penalty 1.1 and a 60 s timeout. -/
theorem tier_parameters_as_implemented (t1 : Except JsError String)
    (t2 : Except JsError AnalysisRecord) :
    (gemma3GenerateAnalysis t1 t2).2.head? = some gemma3Call
      ∧ gemma3Call = TierCallRec.mk 1 "google/gemma-3-12b-it:featherless-ai" 2000 (3 / 10) (9 / 10) none none 45000
      ∧ aiServiceCall = TierCallRec.mk 2 "google/gemma-3-27b-it" 800 (6 / 10) (9 / 10) (some 50) (some (11 / 10)) 60000 := by
  refine ⟨?_, rfl, rfl⟩
  cases t1 with
  | ok body =>
    unfold gemma3GenerateAnalysis
    simp only [parseAIResponseE_eq_ok body]
    rfl
  | error e =>
    unfold gemma3GenerateAnalysis gemma3CatchClause
    by_cases h : is503Class e = true
    · simp [h]
    · simp [h]
